import Mathlib

/-!
Shallow embedding of the booking backend (`backend/app/models.py`,
`backend/app/routes.py`) of the sistema-citas-online repository, together
with theorems settling the frozen claims about its specification.

Conventions of the embedding:
* Machine-level JSON / Python values that reach the routes are modelled by
  `PyVal`.  Python floats are modelled to three decimal places as an integer
  number of thousandths (enough for every claim considered here).
* Wall-clock times (`datetime.time`) are modelled as seconds since midnight.
* Absolute datetimes are modelled as `Int` timestamps.
* The HTTP/JWT glue (token decoding, role lookups) is modelled by passing the
  authenticated provider id directly to each handler; those checks precede all
  validation and touch no data the claims are about.
* The SQLAlchemy session `add` + `commit` pair is modelled as the successful
  state update; the exception path rolls back, so every rejection leaves the
  store unchanged, which is exactly how the handlers are written.
-/

namespace Citas

/-- A Python value as it arrives from `request.get_json()`.  `pyNone` stands
both for an absent key (`dict.get` returns `None`) and for JSON `null`.
A float is represented by its value in thousandths. -/
inductive PyVal where
  | pyNone : PyVal
  | pyBool (b : Bool) : PyVal
  | pyInt (n : Int) : PyVal
  | pyFloat (milli : Int) : PyVal
  | pyStr (s : String) : PyVal
deriving DecidableEq, Repr

/-- Python truthiness, as used by `if not data.get(...)`. -/
def py_truthy : PyVal → Bool
  | .pyNone => false
  | .pyBool b => b
  | .pyInt n => n != 0
  | .pyFloat m => m != 0
  | .pyStr s => !(s == "")

/-- Integer division by 1000 truncating toward zero, the rounding Python's
`int()` applies to a float. -/
def trunc_div_1000 (m : Int) : Int :=
  if 0 ≤ m then m / 1000 else -((-m) / 1000)

/-- Python `int(x)`: `none` models the `ValueError`/`TypeError` raised on a
value `int` cannot convert.  A float is truncated toward zero; a bool is a
subclass of `int` with values 0/1; a numeric string is parsed. -/
def py_int? : PyVal → Option Int
  | .pyNone => none
  | .pyBool b => some (if b then 1 else 0)
  | .pyInt n => some n
  | .pyFloat m => some (trunc_div_1000 m)
  | .pyStr s => s.toInt?

/-- Fractional part of a decimal string, scaled to thousandths (the embedding
keeps three decimal places). -/
def frac_milli? (s : String) : Option Int :=
  if s.length > 0 && s.all (fun c => c.isDigit) then
    ((s ++ "000").take 3).toNat?.map Int.ofNat
  else none

/-- A decimal string parsed to thousandths; `none` models `ValueError`. -/
def str_to_float_milli? (s : String) : Option Int :=
  match s.splitOn (".") with
  | [a] => a.toInt?.map (fun n => n * 1000)
  | [a, b] =>
      match a.toInt?, frac_milli? b with
      | some n, some f => some (if 0 ≤ n then n * 1000 + f else n * 1000 - f)
      | _, _ => none
  | _ => none

/-- Python `float(x)` in thousandths; `none` models the raised
`ValueError`/`TypeError`. -/
def py_float_milli? : PyVal → Option Int
  | .pyNone => none
  | .pyBool b => some (if b then 1000 else 0)
  | .pyInt n => some (n * 1000)
  | .pyFloat m => some m
  | .pyStr s => str_to_float_milli? s

/-- Python `isinstance(x, int)`; note `bool` is a subclass of `int`. -/
def py_isinstance_int : PyVal → Bool
  | .pyInt _ => true
  | .pyBool _ => true
  | _ => false

/-- Numeric value of an `int`-instance `PyVal`, used in comparisons. -/
def py_as_int : PyVal → Int
  | .pyInt n => n
  | .pyBool b => if b then 1 else 0
  | _ => 0

/-- Truthiness test for an optional string field of the request body. -/
def str_falsy : Option String → Bool
  | none => true
  | some s => s == ""

/-- werkzeug `generate_password_hash`, modelled as tagging; the hash scheme is
external glue and irrelevant to every claim. -/
def generate_password_hash (password : String) : String :=
  "pbkdf2:" ++ password

/-- The `appointmentstatustype_enum` values of `models.py`. -/
inductive AppointmentStatus where
  | PENDING_PROVIDER
  | CONFIRMED
  | CANCELLED_BY_CLIENT
  | CANCELLED_BY_PROVIDER
  | COMPLETED
  | NO_SHOW
deriving DecidableEq, Repr

/-- Occupying statuses: those that block new bookings (spec glossary). -/
def occupying : AppointmentStatus → Bool
  | .PENDING_PROVIDER => true
  | .CONFIRMED => true
  | _ => false

/-- Row of the `users` table (`models.py`, class `User`). -/
structure User where
  user_id : Nat
  email : String
  password_hash : String
  first_name : Option String
  last_name : Option String
  phone_number : Option String
  role : String
deriving DecidableEq, Repr

/-- Row of the `providers` table (`models.py`, class `Provider`);
`provider_id` equals the owning user's id. -/
structure Provider where
  provider_id : Nat
  business_name : String
  business_type : Option String
  address : Option String
  bio : Option String
  timezone : String
deriving DecidableEq, Repr

/-- Row of the `services` table (`models.py`, class `Service`); the price is
in thousandths, `none` when NULL. -/
structure Service where
  id : Nat
  provider_id : Nat
  name : String
  description : Option String
  duration_minutes : Int
  price : Option Int
  is_active : Bool
deriving DecidableEq, Repr

/-- Row of the `availability_rules` table.  The route validates and binds an
integer 0 (Monday) .. 6 (Sunday); times are seconds since midnight. -/
structure AvailabilityRule where
  id : Nat
  provider_id : Nat
  day_of_week : Int
  start_time : Nat
  end_time : Nat
deriving DecidableEq, Repr

/-- Row of the `appointments` table (`models.py`, class `Appointment`).
`client_id` and `service_id` are nullable (their FKs are `SET NULL`). -/
structure Appointment where
  id : Nat
  client_id : Option Nat
  provider_id : Nat
  service_id : Option Nat
  start_datetime : Int
  end_datetime : Int
  status : AppointmentStatus
  notes_client : Option String
  notes_provider : Option String
deriving DecidableEq, Repr

/-- The durable store: one list per table, plus a surrogate-key counter. -/
structure Store where
  users : List User
  providers : List Provider
  services : List Service
  availability_rules : List AvailabilityRule
  appointments : List Appointment
  next_id : Nat
deriving DecidableEq, Repr

/-- The empty store. -/
def store0 : Store :=
  { users := [], providers := [], services := [], availability_rules := [],
    appointments := [], next_id := 0 }

/-- Body of `POST /auth/register/provider`.  The route reads the string
fields with `data.get`; an absent key is `none`. -/
structure ProviderRegReq where
  email : Option String
  password : Option String
  business_name : Option String
  first_name : Option String
  last_name : Option String
  phone_number : Option String
  business_type : Option String
  timezone : Option String
  address : Option String
  bio : Option String
deriving DecidableEq, Repr

/-- Body of `POST /auth/register/client`. -/
structure ClientRegReq where
  email : Option String
  password : Option String
  first_name : Option String
  last_name : Option String
  phone_number : Option String
deriving DecidableEq, Repr

/-- Outcome of a registration handler, by HTTP status. -/
inductive RegisterResult where
  | badRequest
  | conflict
  | created (user_id : Nat)
deriving DecidableEq, Repr

/-- Handler `register_provider` of `routes.py`: require email, password and
business_name truthy; 409 when the email is already registered; otherwise
insert the user together with its provider profile. -/
def register_provider (req : ProviderRegReq) (st : Store) : RegisterResult × Store :=
  if str_falsy req.email || str_falsy req.password || str_falsy req.business_name then
    (.badRequest, st)
  else if st.users.any (fun u => u.email == req.email.getD ("")) then
    (.conflict, st)
  else
    let uid := st.next_id
    let user : User :=
      { user_id := uid, email := req.email.getD (""),
        password_hash := generate_password_hash (req.password.getD ("")),
        first_name := req.first_name, last_name := req.last_name,
        phone_number := req.phone_number, role := "provider" }
    let prov : Provider :=
      { provider_id := uid, business_name := req.business_name.getD (""),
        business_type := some (req.business_type.getD ("default_type")),
        address := req.address, bio := req.bio,
        timezone := req.timezone.getD ("UTC") }
    (.created uid,
      { st with users := st.users ++ [user], providers := st.providers ++ [prov],
                next_id := uid + 1 })

/-- Handler `register_client` of `routes.py`: require email and password truthy; 409
when the email is already registered; otherwise insert the user. -/
def register_client (req : ClientRegReq) (st : Store) : RegisterResult × Store :=
  if str_falsy req.email || str_falsy req.password then
    (.badRequest, st)
  else if st.users.any (fun u => u.email == req.email.getD ("")) then
    (.conflict, st)
  else
    let uid := st.next_id
    let user : User :=
      { user_id := uid, email := req.email.getD (""),
        password_hash := generate_password_hash (req.password.getD ("")),
        first_name := req.first_name, last_name := req.last_name,
        phone_number := req.phone_number, role := "client" }
    (.created uid, { st with users := st.users ++ [user], next_id := uid + 1 })

/-- Body of `POST /services`.  `name` is read with `data.get` and tested for
truthiness; `duration_minutes` and `price` reach the handler as raw JSON
values. -/
structure ServiceCreateReq where
  name : Option String
  description : Option String
  duration_minutes : PyVal
  price : PyVal
  is_active : Option Bool
deriving DecidableEq, Repr

/-- Outcome of `create_service`, by HTTP status. -/
inductive ServiceResult where
  | badRequest
  | created (s : Service)
deriving DecidableEq, Repr

/-- The price block of `create_service`/`update_service`: skip when the key
is `None`, else `float(...)` (400 on failure) and reject negatives. -/
def price_check : PyVal → Option (Option Int)
  | .pyNone => some none
  | v =>
    match py_float_milli? v with
    | none => none
    | some m => if m < 0 then none else some (some m)

/-- Handler `create_service` of `routes.py` with the authenticated provider id
already resolved: truthiness check on name and duration, `int()` conversion
of the duration (400 on `ValueError`/`TypeError`), positivity check, price
check, then insert and commit. -/
def create_service (pid : Nat) (req : ServiceCreateReq) (st : Store) :
    ServiceResult × Store :=
  if str_falsy req.name || !(py_truthy req.duration_minutes) then
    (.badRequest, st)
  else
    match py_int? req.duration_minutes with
    | none => (.badRequest, st)
    | some d =>
      if d ≤ 0 then (.badRequest, st)
      else
        match price_check req.price with
        | none => (.badRequest, st)
        | some p =>
          let sv : Service :=
            { id := st.next_id, provider_id := pid, name := req.name.getD (""),
              description := req.description, duration_minutes := d,
              price := p, is_active := req.is_active.getD true }
          (.created sv,
            { st with services := st.services ++ [sv], next_id := st.next_id + 1 })

/-- Body of `PUT /services/<id>`: each field is updated only when its key is
present in the JSON body (`'field' in data`). -/
structure ServiceUpdateReq where
  name : Option String
  description : Option String
  duration_minutes : Option PyVal
  price : Option PyVal
  is_active : Option PyVal
deriving DecidableEq, Repr

/-- Outcome of `update_service`/`delete_service`, by HTTP status. -/
inductive MutResult where
  | badRequest
  | forbidden
  | notFound
  | ok
deriving DecidableEq, Repr

/-- The duration branch of `update_service`: `int()` then positivity. -/
def update_duration? (v : PyVal) : Option Int :=
  match py_int? v with
  | none => none
  | some d => if d ≤ 0 then none else some d

/-- The `name` branch of `update_service`. -/
def apply_name_update (req : ServiceUpdateReq) (s : Service) : Service :=
  match req.name with
  | none => s
  | some n => { s with name := n }

/-- The `description` branch of `update_service`. -/
def apply_description_update (req : ServiceUpdateReq) (s : Service) : Service :=
  match req.description with
  | none => s
  | some d => { s with description := some d }

/-- The `duration_minutes` branch of `update_service`; `none` models the 400
answered on an invalid duration. -/
def apply_duration_update (req : ServiceUpdateReq) (s : Service) : Option Service :=
  match req.duration_minutes with
  | none => some s
  | some v =>
    match update_duration? v with
    | none => none
    | some d => some { s with duration_minutes := d }

/-- The `price` branch of `update_service`. -/
def apply_price_update (req : ServiceUpdateReq) (s : Service) : Option Service :=
  match req.price with
  | none => some s
  | some v =>
    match price_check v with
    | none => none
    | some p => some { s with price := p }

/-- The `is_active` branch of `update_service`: the value must be a JSON
boolean. -/
def apply_is_active_update (req : ServiceUpdateReq) (s : Service) : Option Service :=
  match req.is_active with
  | none => some s
  | some (.pyBool b) => some { s with is_active := b }
  | some _ => none

/-- Field updates of `update_service` applied to a service row, in the order
the handler checks them (name, description, duration, price, is_active);
`none` models a 400 answered before `commit`, so nothing is persisted. -/
def apply_service_update (req : ServiceUpdateReq) (s : Service) : Option Service :=
  (apply_duration_update req (apply_description_update req (apply_name_update req s))).bind
    (fun s3 => (apply_price_update req s3).bind (apply_is_active_update req))

/-- Handler `update_service` of `routes.py`: global lookup by id, ownership check,
field-by-field validation (any failure answers 400 before `commit`), then
commit of the updated row. -/
def update_service (pid sid : Nat) (req : ServiceUpdateReq) (st : Store) :
    MutResult × Store :=
  match st.services.find? (fun s => s.id == sid) with
  | none => (.notFound, st)
  | some s =>
    if s.provider_id != pid then (.forbidden, st)
    else
      match apply_service_update req s with
      | none => (.badRequest, st)
      | some s2 =>
        (.ok, { st with services := st.services.map (fun t => if t.id == sid then s2 else t) })

/-- Handler `delete_service` of `routes.py`: global lookup, ownership check, then
`session.delete(service)` + commit.  The `Appointment.service_id` foreign key
is declared `ondelete='SET NULL'` and the `appointments_for_service`
relationship carries no delete cascade, so deleting the row nulls the
reference on its appointments and removes no appointment. -/
def delete_service (pid sid : Nat) (st : Store) : MutResult × Store :=
  match st.services.find? (fun s => s.id == sid) with
  | none => (.notFound, st)
  | some s =>
    if s.provider_id != pid then (.forbidden, st)
    else
      (.ok,
        { st with
          services := st.services.filter (fun t => !(t.id == sid)),
          appointments := st.appointments.map
            (fun a => if a.service_id == some sid then { a with service_id := none } else a) })

/-- The PostgreSQL `dayofweektype_enum` labels declared in `models.py`
(`day_of_week_enum`), in declaration order — the order PostgreSQL sorts the
type by. -/
def day_of_week_enum_labels : List String :=
  ["LUNES", "MARTES", "MIERCOLES", "JUEVES", "VIERNES", "SABADO", "DOMINGO"]

/-- A value bound to a PostgreSQL column parameter: either one of an enum
type's labels or a plain integer. -/
inductive PgColumnValue where
  | enum_label (s : String)
  | int_value (n : Int)
deriving DecidableEq, Repr

/-- Acceptance by the `dayofweektype_enum`-typed column `day_of_week`: only
the declared labels are values of the type; an integer is rejected by the
store. -/
def day_of_week_column_accepts : PgColumnValue → Bool
  | .enum_label s => day_of_week_enum_labels.contains s
  | .int_value _ => false

/-- The value `create_availability_rule` binds to the `day_of_week` column:
the integer it validated, passed through unchanged. -/
def rule_day_column_value (r : AvailabilityRule) : PgColumnValue :=
  .int_value r.day_of_week

/-- The `day_of_week` validation of `create_availability_rule`:
`isinstance(day_of_week, int) and 0 <= day_of_week <= 6`. -/
def day_of_week_input_ok (v : PyVal) : Bool :=
  py_isinstance_int v && decide (0 ≤ py_as_int v) && decide (py_as_int v ≤ 6)

/-- Split a character list at every occurrence of a separator (the list-level
counterpart of `str.split(sep)`). -/
def split_chars (sep : Char) : List Char → List (List Char)
  | [] => [[]]
  | c :: cs =>
    match split_chars sep cs with
    | [] => if c == sep then [[], []] else [[c]]
    | h :: t => if c == sep then [] :: h :: t else (c :: h) :: t

/-- A two-digit field of a time string. -/
def two_digits? : List Char → Option Nat
  | [a, b] =>
    if a.isDigit && b.isDigit then some ((a.toNat - 48) * 10 + (b.toNat - 48))
    else none
  | _ => none

/-- Python `datetime.time.fromisoformat` on `HH:MM` or `HH:MM:SS`, modelled as
seconds since midnight; `none` models the `ValueError` on a malformed
string. -/
def time_fromisoformat? (s : String) : Option Nat :=
  match split_chars (':') s.data with
  | [h, m] => do
      let hv ← two_digits? h
      let mv ← two_digits? m
      if hv < 24 && mv < 60 then pure (hv * 3600 + mv * 60) else none
  | [h, m, sec] => do
      let hv ← two_digits? h
      let mv ← two_digits? m
      let sv ← two_digits? sec
      if hv < 24 && mv < 60 && sv < 60 then pure (hv * 3600 + mv * 60 + sv) else none
  | _ => none

/-- Body of `POST /availability-rules`.  `day_of_week` arrives as a raw JSON
value; the time fields arrive as strings (or are absent). -/
structure RuleCreateReq where
  day_of_week : PyVal
  start_time : Option String
  end_time : Option String
deriving DecidableEq, Repr

/-- Outcome of `create_availability_rule`, by HTTP status. -/
inductive RuleResult where
  | badRequest
  | created (r : AvailabilityRule)
deriving DecidableEq, Repr

/-- Handler `create_availability_rule` of `routes.py` with the authenticated provider
id already resolved: presence checks (`is None`), integer-range check on
`day_of_week`, `fromisoformat` parsing of both times, `start >= end`
rejection, then insert and commit. -/
def create_availability_rule (pid : Nat) (req : RuleCreateReq) (st : Store) :
    RuleResult × Store :=
  if req.day_of_week == .pyNone || req.start_time == none || req.end_time == none then
    (.badRequest, st)
  else if !(day_of_week_input_ok req.day_of_week) then
    (.badRequest, st)
  else
    match time_fromisoformat? (req.start_time.getD ("")),
          time_fromisoformat? (req.end_time.getD ("")) with
    | some ps, some pe =>
      if pe ≤ ps then (.badRequest, st)
      else
        let r : AvailabilityRule :=
          { id := st.next_id, provider_id := pid,
            day_of_week := py_as_int req.day_of_week,
            start_time := ps, end_time := pe }
        (.created r,
          { st with availability_rules := st.availability_rules ++ [r],
                    next_id := st.next_id + 1 })
    | _, _ => (.badRequest, st)

/-- The `ORDER BY day_of_week, start_time` key of `get_availability_rules`.
PostgreSQL sorts an enum column by label declaration order, which for
`dayofweektype_enum` is Monday (`LUNES`) through Sunday (`DOMINGO`) — the
same order as the integers 0..6 the route validates. -/
def rule_le (a b : AvailabilityRule) : Bool :=
  decide (a.day_of_week < b.day_of_week) ||
    (a.day_of_week == b.day_of_week && decide (a.start_time ≤ b.start_time))

/-- Handler `get_availability_rules` of `routes.py`: the provider's own rules
(`user.provider_profile.availability_rules`), ordered by
`(day_of_week, start_time)`. -/
def get_availability_rules (pid : Nat) (st : Store) : List AvailabilityRule :=
  (st.availability_rules.filter (fun r => r.provider_id == pid)).mergeSort rule_le

/-- The hard-coded column default of `Appointment.status` in `models.py`
(`default='CONFIRMED'`). -/
def appointment_status_default : AppointmentStatus := .CONFIRMED

/-- Construction of an `appointments` row without an explicit status: the
column default applies.  No provider-policy input exists anywhere in the
model or the routes. -/
def new_appointment (id : Nat) (client : Option Nat) (pid : Nat)
    (sid : Option Nat) (s e : Int) : Appointment :=
  { id := id, client_id := client, provider_id := pid, service_id := sid,
    start_datetime := s, end_datetime := e,
    status := appointment_status_default,
    notes_client := none, notes_provider := none }

/-- Modelled from the spec: the initial-status rule of section 4.6 — missing
from `src/` (no appointment-creation code exists and the models carry no
policy field) — "`CONFIRMED` if the provider's policy auto-confirms, else
`PENDING_PROVIDER`". -/
def spec_initial_status (auto_confirm : Bool) : AppointmentStatus :=
  if auto_confirm then .CONFIRMED else .PENDING_PROVIDER

/-- ORM-level `session.delete(user)` semantics fixed by the relationship
declarations of `models.py`: `User.provider_profile`,
`User.client_appointments`, `Provider.services_offered`,
`Provider.availability_rules` and `Provider.provider_appointments` all carry
`cascade="all, delete-orphan"`, so deleting a user deletes its provider
profile and, transitively, the provider's services, rules and appointments,
and deletes every appointment in which the user is the client.  (No HTTP
route performs this deletion yet; the cascade is declared on the models.) -/
def delete_user (uid : Nat) (st : Store) : Store :=
  { st with
    users := st.users.filter (fun u => !(u.user_id == uid)),
    providers := st.providers.filter (fun p => !(p.provider_id == uid)),
    services := st.services.filter (fun s => !(s.provider_id == uid)),
    availability_rules := st.availability_rules.filter (fun r => !(r.provider_id == uid)),
    appointments := st.appointments.filter
      (fun a => !(a.client_id == some uid) && !(a.provider_id == uid)) }

/-- The half-open interval overlap test of spec section 4.1:
`a.start < b.end AND b.start < a.end`. -/
def overlaps (s1 e1 s2 e2 : Int) : Bool :=
  decide (s1 < e2) && decide (s2 < e1)

/-- Outcome of `createAppointment`. -/
inductive BookingOutcome where
  | created (a : Appointment)
  | rejectedConflict
deriving DecidableEq, Repr

/-- Modelled from the spec: `createAppointment` — absent from `src/`
(`routes.py` ends before the appointment endpoints; only the `Appointment`
model exists).  Per spec sections 4.5 (step 5), 4.6 and 5: one atomic unit
performs the conflict check against the provider's occupying appointments
and, if free, the insert; a conflicting occupying overlap answers
`Rejected(CONFLICT)`.  The availability and service checks of 4.5 steps 1–4
are presupposed by the claim ("the slot was free") and not modelled.  The
created row takes the creation-time status, which is occupying either way. -/
def createAppointment (cid pid : Nat) (sid : Option Nat) (s e : Int)
    (st : Store) : BookingOutcome × Store :=
  if st.appointments.any (fun a =>
      a.provider_id == pid && occupying a.status &&
        overlaps a.start_datetime a.end_datetime s e) then
    (.rejectedConflict, st)
  else
    let a := new_appointment st.next_id (some cid) pid sid s e
    (.created a,
      { st with appointments := st.appointments ++ [a], next_id := st.next_id + 1 })

/-- Store invariant: no two users share an email (the `users.email` column is
declared `unique=True`, and both registration handlers check it). -/
def emails_unique (st : Store) : Prop :=
  st.users.Pairwise (fun a b => a.email ≠ b.email)

/-- Store invariant: every stored service has a positive duration. -/
def services_duration_positive (st : Store) : Prop :=
  ∀ s ∈ st.services, 0 < s.duration_minutes

/-- Store invariant: every stored availability rule has `start_time <
end_time`. -/
def rules_time_ok (st : Store) : Prop :=
  ∀ r ∈ st.availability_rules, r.start_time < r.end_time

/-- A sample service row, used to evaluate the handlers on concrete data. -/
def svF : Service :=
  { id := 4, provider_id := 1, name := "Corte30", description := none,
    duration_minutes := 30, price := none, is_active := true }

/-- A sample appointment referencing service 4, owned by provider 1 and
client 2. -/
def apF1 : Appointment :=
  { id := 7, client_id := some 2, provider_id := 1, service_id := some 4,
    start_datetime := 0, end_datetime := 1800,
    status := AppointmentStatus.COMPLETED,
    notes_client := none, notes_provider := none }

/-- A sample appointment of another provider and client, referencing no
service. -/
def apF2 : Appointment :=
  { id := 8, client_id := some 3, provider_id := 5, service_id := none,
    start_datetime := 100, end_datetime := 200,
    status := AppointmentStatus.CONFIRMED,
    notes_client := none, notes_provider := none }

/-- A sample store holding the service and appointments above. -/
def stF : Store :=
  { users := [], providers := [], services := [svF],
    availability_rules := [], appointments := [apF1, apF2], next_id := 20 }

/-- C2 counterexample: an appointment row created without an explicit status
takes the hard-coded default `CONFIRMED`; with a provider policy that does
not auto-confirm, the claimed rule demands `PENDING_PROVIDER`, which the
default contradicts — no policy input reaches the construction at all. -/
theorem C2_counterexample :
    (new_appointment 0 (some 2) 1 none 0 3600).status = AppointmentStatus.CONFIRMED ∧
    spec_initial_status false = AppointmentStatus.PENDING_PROVIDER ∧
    (new_appointment 0 (some 2) 1 none 0 3600).status ≠ spec_initial_status false := by
  decide

/-- C2 (amended): the initial status of a created appointment is always the
hard-coded column default `CONFIRMED` and is never `PENDING_PROVIDER`,
whatever the appointment's data; no provider auto-confirm policy exists in
the code. -/
theorem C2_default_status_hardcoded :
    ∀ (id pid : Nat) (c sid : Option Nat) (s e : Int),
      (new_appointment id c pid sid s e).status = AppointmentStatus.CONFIRMED ∧
      (new_appointment id c pid sid s e).status ≠ AppointmentStatus.PENDING_PROVIDER := by
  intro id pid c sid s e
  exact ⟨rfl, by simp [new_appointment, appointment_status_default]⟩

/-- C3: the route validation of `create_availability_rule` accepts the
integer day 0 (Monday) and binds it, unchanged, to the `day_of_week` column,
but that column's PostgreSQL type `dayofweektype_enum` admits only the seven
Spanish day labels — the integer is not a value of the type, so the insert
the route attempts is rejected by the store and the created rule can never
round-trip.  The code contradicts itself: its own error message documents
days 0..6 while its column type admits only `LUNES`..`DOMINGO`. -/
theorem C3_day_of_week_enum_mismatch :
    day_of_week_input_ok (PyVal.pyInt 0) = true ∧
    (create_availability_rule 1
        { day_of_week := PyVal.pyInt 0, start_time := some ("09:00"),
          end_time := some ("17:00") } store0).1
      = RuleResult.created
          { id := 0, provider_id := 1, day_of_week := 0,
            start_time := 32400, end_time := 61200 } ∧
    day_of_week_column_accepts
        (rule_day_column_value
          { id := 0, provider_id := 1, day_of_week := 0,
            start_time := 32400, end_time := 61200 }) = false ∧
    day_of_week_column_accepts (PgColumnValue.enum_label ("LUNES")) = true := by
  decide

/-- C8 counterexample: provider registration with the timezone string
`Not_A_Real/Zone` — not an IANA zone — succeeds and stores that string
verbatim, instead of being rejected as a validation error. -/
theorem C8_counterexample :
    (register_provider
        { email := some ("p@x.com"), password := some ("pw"),
          business_name := some ("B"), first_name := none, last_name := none,
          phone_number := none, business_type := none,
          timezone := some ("Not_A_Real/Zone"), address := none,
          bio := none } store0).1 = RegisterResult.created 0 ∧
    ((register_provider
        { email := some ("p@x.com"), password := some ("pw"),
          business_name := some ("B"), first_name := none, last_name := none,
          phone_number := none, business_type := none,
          timezone := some ("Not_A_Real/Zone"), address := none,
          bio := none } store0).2).providers.map Provider.timezone
      = [("Not_A_Real/Zone")] := by
  decide

/-- C8 (amended): `register_provider` performs no timezone validation at all —
any request that passes the presence and email-uniqueness checks is accepted,
and the provider row stores the request's timezone string verbatim
(defaulting to `UTC` when absent), whatever its content. -/
theorem C8_no_timezone_validation :
    ∀ (req : ProviderRegReq) (st : Store),
      str_falsy req.email = false → str_falsy req.password = false →
      str_falsy req.business_name = false →
      st.users.any (fun u => u.email == req.email.getD ("")) = false →
      (register_provider req st).1 = RegisterResult.created st.next_id ∧
      ∃ p ∈ ((register_provider req st).2).providers,
        p.timezone = req.timezone.getD ("UTC") := by
  intro req st h1 h2 h3 h4
  unfold register_provider
  simp only [h1, h2, h3, h4, Bool.or_self, Bool.or_false, Bool.false_or,
    Bool.false_eq_true, if_false, ite_false]
  exact ⟨trivial, _, List.mem_append_right _ (List.mem_singleton_self _), rfl⟩

/-- C8 witness: the amended theorem applied to a concrete registration. -/
theorem C8_no_timezone_validation_witness :
    (register_provider
        { email := some ("q@x.com"), password := some ("pw"),
          business_name := some ("B"), first_name := none, last_name := none,
          phone_number := none, business_type := none, timezone := some ("XX"),
          address := none, bio := none } store0).1 = RegisterResult.created 0 ∧
    ∃ p ∈ ((register_provider
        { email := some ("q@x.com"), password := some ("pw"),
          business_name := some ("B"), first_name := none, last_name := none,
          phone_number := none, business_type := none, timezone := some ("XX"),
          address := none, bio := none } store0).2).providers,
      p.timezone = "XX" :=
  C8_no_timezone_validation
    { email := some ("q@x.com"), password := some ("pw"),
      business_name := some ("B"), first_name := none, last_name := none,
      phone_number := none, business_type := none, timezone := some ("XX"),
      address := none, bio := none } store0 rfl rfl rfl rfl

theorem apply_name_update_duration (req : ServiceUpdateReq) (s : Service) :
    (apply_name_update req s).duration_minutes = s.duration_minutes := by
  cases h : req.name <;> simp [apply_name_update, h]

theorem apply_description_update_duration (req : ServiceUpdateReq) (s : Service) :
    (apply_description_update req s).duration_minutes = s.duration_minutes := by
  cases h : req.description <;> simp [apply_description_update, h]

theorem update_duration_pos (v : PyVal) (d : Int)
    (h : update_duration? v = some d) : 0 < d := by
  unfold update_duration? at h
  split at h
  · exact absurd h (by simp)
  · split at h
    · exact absurd h (by simp)
    · simp only [Option.some.injEq] at h
      omega

theorem apply_duration_update_pos (req : ServiceUpdateReq) (s s' : Service)
    (h : apply_duration_update req s = some s')
    (hp : 0 < s.duration_minutes) : 0 < s'.duration_minutes := by
  unfold apply_duration_update at h
  split at h
  · simp only [Option.some.injEq] at h; subst h; exact hp
  · split at h
    · exact absurd h (by simp)
    · rename_i hud
      simp only [Option.some.injEq] at h; subst h
      exact update_duration_pos _ _ hud

theorem apply_price_update_duration (req : ServiceUpdateReq) (s s' : Service)
    (h : apply_price_update req s = some s') :
    s'.duration_minutes = s.duration_minutes := by
  unfold apply_price_update at h
  split at h
  · simp only [Option.some.injEq] at h; subst h; rfl
  · split at h
    · exact absurd h (by simp)
    · simp only [Option.some.injEq] at h; subst h; rfl

theorem apply_is_active_update_duration (req : ServiceUpdateReq) (s s' : Service)
    (h : apply_is_active_update req s = some s') :
    s'.duration_minutes = s.duration_minutes := by
  unfold apply_is_active_update at h
  split at h
  · simp only [Option.some.injEq] at h; subst h; rfl
  · simp only [Option.some.injEq] at h; subst h; rfl
  · exact absurd h (by simp)

theorem apply_service_update_duration_pos (req : ServiceUpdateReq) (s s' : Service)
    (h : apply_service_update req s = some s')
    (hp : 0 < s.duration_minutes) : 0 < s'.duration_minutes := by
  unfold apply_service_update at h
  rcases Option.bind_eq_some.mp h with ⟨s3, h3, hrest⟩
  rcases Option.bind_eq_some.mp hrest with ⟨s4, h4, h5⟩
  have hd3 : 0 < s3.duration_minutes := by
    refine apply_duration_update_pos req _ s3 h3 ?_
    rw [apply_description_update_duration, apply_name_update_duration]
    exact hp
  have hd4 := apply_price_update_duration req s3 s4 h4
  have hd5 := apply_is_active_update_duration req s4 s' h5
  omega

/-- C6 counterexample: a service-creation request whose duration is the JSON
float 30.5 (`pyFloat 30500` thousandths) — not an integer — is not rejected:
Python's `int()` truncates it to 30 and the service is stored with
`duration_minutes = 30`, a silent coercion. -/
theorem C6_counterexample :
    py_int? (PyVal.pyFloat 30500) = some 30 ∧
    create_service 1
        { name := some ("Corte"), description := none,
          duration_minutes := PyVal.pyFloat 30500, price := PyVal.pyNone,
          is_active := none } store0
      = (ServiceResult.created
          { id := 0, provider_id := 1, name := "Corte", description := none,
            duration_minutes := 30, price := none, is_active := true },
         { users := [], providers := [],
           services := [{ id := 0, provider_id := 1, name := "Corte",
                          description := none, duration_minutes := 30,
                          price := none, is_active := true }],
           availability_rules := [], appointments := [], next_id := 1 }) := by
  decide

/-- C6 (amended): a duration that Python's `int()` cannot convert, or that
converts to a non-positive integer, is rejected with a 400 before any store
write; numeric non-integer durations, however, are truncated by `int()`
rather than rejected.  Consequently every stored service has
`duration_minutes > 0`, an invariant preserved by both `create_service` and
`update_service`. -/
theorem C6_duration_validation :
    ∀ (pid sid : Nat) (req : ServiceCreateReq) (ureq : ServiceUpdateReq) (st : Store),
      ((py_int? req.duration_minutes = none ∨
          ∃ d, py_int? req.duration_minutes = some d ∧ d ≤ 0) →
        create_service pid req st = (ServiceResult.badRequest, st)) ∧
      (services_duration_positive st →
        services_duration_positive (create_service pid req st).2 ∧
        services_duration_positive (update_service pid sid ureq st).2) := by
  intro pid sid req ureq st
  constructor
  · intro hbad
    unfold create_service
    split
    · rfl
    · rcases hbad with hnone | ⟨d, hd, hle⟩
      · rw [hnone]
      · simp [hd, hle]
  · intro hpos
    constructor
    · unfold create_service
      split
      · exact hpos
      · split
        · exact hpos
        · split
          · exact hpos
          · split
            · exact hpos
            · intro t ht
              simp only [List.mem_append, List.mem_singleton] at ht
              rcases ht with hin | rfl
              · exact hpos t hin
              · simp
                omega
    · unfold update_service
      split
      · exact hpos
      · rename_i s hf
        split
        · exact hpos
        · split
          · exact hpos
          · rename_i s2 hup
            intro t ht
            simp only [List.mem_map] at ht
            rcases ht with ⟨x, hx, hxe⟩
            by_cases hxid : (x.id == sid) = true
            · rw [if_pos hxid] at hxe; subst hxe
              exact apply_service_update_duration_pos ureq s s2 hup
                (hpos s (List.mem_of_find?_eq_some hf))
            · rw [if_neg hxid] at hxe; subst hxe
              exact hpos x hx

/-- C6 witness: the amended theorem applied to a duration of 0 (rejected, the
store untouched) and to the empty store's invariant. -/
theorem C6_duration_validation_witness :
    create_service 3
        { name := some ("X"), description := none,
          duration_minutes := PyVal.pyInt 0, price := PyVal.pyNone,
          is_active := none } store0 = (ServiceResult.badRequest, store0) ∧
    services_duration_positive
      (create_service 3
        { name := some ("X"), description := none,
          duration_minutes := PyVal.pyInt 0, price := PyVal.pyNone,
          is_active := none } store0).2 ∧
    services_duration_positive
      (update_service 3 0
        { name := none, description := none, duration_minutes := none,
          price := none, is_active := none } store0).2 := by
  have h := C6_duration_validation 3 0
    { name := some ("X"), description := none,
      duration_minutes := PyVal.pyInt 0, price := PyVal.pyNone,
      is_active := none }
    { name := none, description := none, duration_minutes := none,
      price := none, is_active := none } store0
  exact ⟨h.1 (Or.inr ⟨0, rfl, by decide⟩),
         h.2 (by intro s hs; simp [store0] at hs)⟩

/-- C5: a successful `delete_service` removes the service row, keeps every
appointment (same count and, per appointment, all fields unchanged) except
that a `service_id` pointing at the deleted service becomes null, per the
`ondelete='SET NULL'` foreign key. -/
theorem C5_delete_service_detaches :
    ∀ (pid sid : Nat) (st : Store) (s : Service),
      st.services.find? (fun t => t.id == sid) = some s →
      s.provider_id = pid →
      (delete_service pid sid st).1 = MutResult.ok ∧
      ((delete_service pid sid st).2).appointments.length = st.appointments.length ∧
      (∀ a ∈ st.appointments, ∃ a' ∈ ((delete_service pid sid st).2).appointments,
        a'.id = a.id ∧ a'.client_id = a.client_id ∧ a'.provider_id = a.provider_id ∧
        a'.start_datetime = a.start_datetime ∧ a'.end_datetime = a.end_datetime ∧
        a'.status = a.status ∧ a'.notes_client = a.notes_client ∧
        a'.notes_provider = a.notes_provider ∧
        a'.service_id = (if a.service_id = some sid then none else a.service_id)) ∧
      (∀ t ∈ ((delete_service pid sid st).2).services, t.id ≠ sid) := by
  intro pid sid st s hf hown
  have hcond : (s.provider_id != pid) = false := by simp [hown]
  unfold delete_service
  simp only [hf, hcond, Bool.false_eq_true, if_false]
  refine ⟨trivial, by simp, ?_, ?_⟩
  · intro a ha
    refine ⟨_, List.mem_map_of_mem
      (fun a => if a.service_id == some sid then { a with service_id := none } else a) ha, ?_⟩
    by_cases hsi : (a.service_id == some sid) = true
    · have heq : a.service_id = some sid := by simpa using hsi
      rw [if_pos hsi]
      exact ⟨rfl, rfl, rfl, rfl, rfl, rfl, rfl, rfl, by rw [if_pos heq]⟩
    · have hne : a.service_id ≠ some sid := by simpa using hsi
      rw [if_neg hsi]
      exact ⟨rfl, rfl, rfl, rfl, rfl, rfl, rfl, rfl, by rw [if_neg hne]⟩
  · intro t ht
    have := (List.mem_filter.mp ht).2
    simpa using this

/-- C5 witness: the frame theorem applied to the sample store — deleting
service 4 keeps both appointments and nulls only the matching reference. -/
theorem C5_delete_service_detaches_witness :
    (delete_service 1 4 stF).1 = MutResult.ok ∧
    ((delete_service 1 4 stF).2).appointments.length = stF.appointments.length ∧
    (∀ a ∈ stF.appointments, ∃ a' ∈ ((delete_service 1 4 stF).2).appointments,
      a'.id = a.id ∧ a'.client_id = a.client_id ∧ a'.provider_id = a.provider_id ∧
      a'.start_datetime = a.start_datetime ∧ a'.end_datetime = a.end_datetime ∧
      a'.status = a.status ∧ a'.notes_client = a.notes_client ∧
      a'.notes_provider = a.notes_provider ∧
      a'.service_id = (if a.service_id = some 4 then none else a.service_id)) ∧
    (∀ t ∈ ((delete_service 1 4 stF).2).services, t.id ≠ 4) :=
  C5_delete_service_detaches 1 4 stF svF (by decide) rfl

/-- C4 counterexample: the `cascade="all, delete-orphan"` declared on
`User.client_appointments` deletes appointment 7 when its client (user 2) is
deleted — the appointment record does not survive deletion of the owning
client, contradicting the claim. -/
theorem C4_counterexample :
    apF1 ∈ stF.appointments ∧ apF1 ∉ (delete_user 2 stF).appointments := by
  decide

/-- C4 (amended): no implemented route ever deletes an appointment — status
changes are the only lifecycle mutations and `delete_service` preserves every
appointment record — but ORM deletion of a user cascades: every appointment
whose client or provider is the deleted user is removed, and all others
survive. -/
theorem C4_appointment_retention :
    ∀ (st : Store) (uid pid sid : Nat),
      (∀ a ∈ st.appointments, (a.client_id = some uid ∨ a.provider_id = uid) →
        a ∉ (delete_user uid st).appointments) ∧
      (∀ a ∈ st.appointments, a.client_id ≠ some uid → a.provider_id ≠ uid →
        a ∈ (delete_user uid st).appointments) ∧
      (∀ a ∈ st.appointments,
        a.id ∈ (((delete_service pid sid st).2).appointments.map Appointment.id)) := by
  intro st uid pid sid
  refine ⟨?_, ?_, ?_⟩
  · intro a ha howner hmem
    have hp := (List.mem_filter.mp hmem).2
    rcases howner with hc | hpv
    · simp [hc] at hp
    · simp [hpv] at hp
  · intro a ha hc hpv
    refine List.mem_filter.mpr ⟨ha, ?_⟩
    simp [hc, hpv]
  · intro a ha
    unfold delete_service
    split
    · exact List.mem_map_of_mem _ ha
    · split
      · exact List.mem_map_of_mem _ ha
      · simp only [List.map_map, List.mem_map]
        refine ⟨a, ha, ?_⟩
        by_cases hsi : (a.service_id == some sid) = true
        · simp [Function.comp, hsi]
        · simp [Function.comp, hsi]

/-- C4 witness: the amended theorem applied to the sample store — deleting
client 2 removes appointment 7 and keeps appointment 8, while deleting
service 4 keeps both appointment records. -/
theorem C4_appointment_retention_witness :
    apF1 ∉ (delete_user 2 stF).appointments ∧
    apF2 ∈ (delete_user 2 stF).appointments ∧
    apF1.id ∈ (((delete_service 1 4 stF).2).appointments.map Appointment.id) :=
  ⟨(C4_appointment_retention stF 2 1 4).1 apF1 (by decide) (Or.inl rfl),
   (C4_appointment_retention stF 2 1 4).2.1 apF2 (by decide) (by decide) (by decide),
   (C4_appointment_retention stF 2 1 4).2.2 apF1 (by decide)⟩

/-- C7: a rule-creation request whose parsed times satisfy `start >= end` is
answered 400 with the store untouched, and `create_availability_rule`
preserves the invariant that every stored rule has `start_time < end_time`
(rule listing, the only other rule operation implemented, reads only). -/
theorem C7_rule_start_before_end :
    ∀ (pid : Nat) (req : RuleCreateReq) (st : Store),
      ((∃ s e ps pe, req.start_time = some s ∧ req.end_time = some e ∧
          time_fromisoformat? s = some ps ∧ time_fromisoformat? e = some pe ∧
          pe ≤ ps) →
        create_availability_rule pid req st = (RuleResult.badRequest, st)) ∧
      (rules_time_ok st → rules_time_ok (create_availability_rule pid req st).2) := by
  intro pid req st
  constructor
  · rintro ⟨s, e, ps, pe, hs, he, hps, hpe, hle⟩
    unfold create_availability_rule
    split
    · rfl
    · split
      · rfl
      · rw [hs, he]
        simp only [Option.getD_some, hps, hpe]
        simp [hle]
  · intro hinv
    unfold create_availability_rule
    split
    · exact hinv
    · split
      · exact hinv
      · split
        · split
          · exact hinv
          · intro r hr
            simp only [List.mem_append, List.mem_singleton] at hr
            rcases hr with hin | rfl
            · exact hinv r hin
            · simp
              omega
        · exact hinv

/-- C7 witness: the theorem applied to a concrete request with start 09:00
and end 08:00, rejected with the store untouched. -/
theorem C7_rule_start_before_end_witness :
    create_availability_rule 2
        { day_of_week := PyVal.pyInt 1, start_time := some ("09:00"),
          end_time := some ("08:00") } store0 = (RuleResult.badRequest, store0) ∧
    rules_time_ok (create_availability_rule 2
        { day_of_week := PyVal.pyInt 1, start_time := some ("09:00"),
          end_time := some ("08:00") } store0).2 := by
  have h := C7_rule_start_before_end 2
    { day_of_week := PyVal.pyInt 1, start_time := some ("09:00"),
      end_time := some ("08:00") } store0
  exact ⟨h.1 ⟨"09:00", "08:00", 32400, 28800, rfl, rfl, by decide, by decide,
           by decide⟩,
         h.2 (by intro r hr; simp [store0] at hr)⟩

theorem rule_le_trans (a b c : AvailabilityRule)
    (hab : rule_le a b = true) (hbc : rule_le b c = true) : rule_le a c = true := by
  simp only [rule_le, Bool.or_eq_true, Bool.and_eq_true, decide_eq_true_eq,
    beq_iff_eq] at hab hbc ⊢
  omega

theorem rule_le_total (a b : AvailabilityRule) :
    (rule_le a b || rule_le b a) = true := by
  simp only [rule_le, Bool.or_eq_true, Bool.and_eq_true, decide_eq_true_eq,
    beq_iff_eq]
  omega

/-- C9: the rule listing returns a permutation of exactly the provider's own
rules — a rule is in the output iff it is a stored rule of that provider —
and the output is sorted by `(day_of_week, start_time)`, day 0 (Monday)
through day 6 (Sunday) first (the enum's label order coincides with the
integer order). -/
theorem C9_rules_listing :
    ∀ (pid : Nat) (st : Store),
      (get_availability_rules pid st).Perm
        (st.availability_rules.filter (fun r => r.provider_id == pid)) ∧
      (∀ r, r ∈ get_availability_rules pid st ↔
        (r ∈ st.availability_rules ∧ r.provider_id = pid)) ∧
      List.Pairwise (fun a b => rule_le a b = true) (get_availability_rules pid st) := by
  intro pid st
  unfold get_availability_rules
  have hperm := List.mergeSort_perm
    (st.availability_rules.filter (fun r => r.provider_id == pid)) rule_le
  refine ⟨hperm, ?_, ?_⟩
  · intro r
    rw [hperm.mem_iff, List.mem_filter]
    simp
  · exact List.sorted_mergeSort rule_le_trans rule_le_total _

theorem pairwise_email_append (l : List User) (u : User)
    (h : l.Pairwise (fun a b => a.email ≠ b.email))
    (hne : l.any (fun v => v.email == u.email) = false) :
    (l ++ [u]).Pairwise (fun a b => a.email ≠ b.email) := by
  rw [List.pairwise_append]
  refine ⟨h, by simp, ?_⟩
  intro a ha b hb
  rcases List.mem_singleton.mp hb with rfl
  intro heq
  have hall := List.any_eq_false.mp hne a ha
  simp [heq] at hall

/-- C10: registering a provider or client with an email already held by any
user answers 409 and leaves the store unchanged, and both registration
handlers preserve the invariant that no two users share an email. -/
theorem C10_email_uniqueness :
    ∀ (rp : ProviderRegReq) (rc : ClientRegReq) (st : Store),
      ((str_falsy rp.email = false ∧ str_falsy rp.password = false ∧
        str_falsy rp.business_name = false ∧
        (∃ u ∈ st.users, u.email = rp.email.getD (""))) →
        register_provider rp st = (RegisterResult.conflict, st)) ∧
      ((str_falsy rc.email = false ∧ str_falsy rc.password = false ∧
        (∃ u ∈ st.users, u.email = rc.email.getD (""))) →
        register_client rc st = (RegisterResult.conflict, st)) ∧
      (emails_unique st →
        emails_unique (register_provider rp st).2 ∧
        emails_unique (register_client rc st).2) := by
  intro rp rc st
  refine ⟨?_, ?_, ?_⟩
  · rintro ⟨h1, h2, h3, u, hu, he⟩
    have hany : st.users.any (fun v => v.email == rp.email.getD ("")) = true :=
      List.any_eq_true.mpr ⟨u, hu, by simp [he]⟩
    unfold register_provider
    simp [h1, h2, h3, hany]
  · rintro ⟨h1, h2, u, hu, he⟩
    have hany : st.users.any (fun v => v.email == rc.email.getD ("")) = true :=
      List.any_eq_true.mpr ⟨u, hu, by simp [he]⟩
    unfold register_client
    simp [h1, h2, hany]
  · intro huniq
    constructor
    · unfold register_provider
      split
      · exact huniq
      · split
        · exact huniq
        · rename_i hany
          exact pairwise_email_append _ _ huniq (by simpa using hany)
    · unfold register_client
      split
      · exact huniq
      · split
        · exact huniq
        · rename_i hany
          exact pairwise_email_append _ _ huniq (by simpa using hany)

/-- C10 witness: the theorem applied to a store already holding the email
`a@b.c` — a duplicate provider registration is answered 409 with the store
unchanged, and uniqueness is preserved by both handlers. -/
theorem C10_email_uniqueness_witness :
    register_provider
        { email := some ("a@b.c"), password := some ("pw"),
          business_name := some ("B"), first_name := none, last_name := none,
          phone_number := none, business_type := none, timezone := none,
          address := none, bio := none }
        { users := [{ user_id := 0, email := "a@b.c", password_hash := "h",
                      first_name := none, last_name := none,
                      phone_number := none, role := "client" }],
          providers := [], services := [], availability_rules := [],
          appointments := [], next_id := 1 }
      = (RegisterResult.conflict,
         { users := [{ user_id := 0, email := "a@b.c", password_hash := "h",
                       first_name := none, last_name := none,
                       phone_number := none, role := "client" }],
           providers := [], services := [], availability_rules := [],
           appointments := [], next_id := 1 }) ∧
    emails_unique (register_provider
        { email := some ("a@b.c"), password := some ("pw"),
          business_name := some ("B"), first_name := none, last_name := none,
          phone_number := none, business_type := none, timezone := none,
          address := none, bio := none }
        { users := [{ user_id := 0, email := "a@b.c", password_hash := "h",
                      first_name := none, last_name := none,
                      phone_number := none, role := "client" }],
          providers := [], services := [], availability_rules := [],
          appointments := [], next_id := 1 }).2 ∧
    emails_unique (register_client
        { email := some ("c@d.e"), password := some ("pw"),
          first_name := none, last_name := none, phone_number := none }
        { users := [{ user_id := 0, email := "a@b.c", password_hash := "h",
                      first_name := none, last_name := none,
                      phone_number := none, role := "client" }],
          providers := [], services := [], availability_rules := [],
          appointments := [], next_id := 1 }).2 := by
  have h := C10_email_uniqueness
    { email := some ("a@b.c"), password := some ("pw"),
      business_name := some ("B"), first_name := none, last_name := none,
      phone_number := none, business_type := none, timezone := none,
      address := none, bio := none }
    { email := some ("c@d.e"), password := some ("pw"),
      first_name := none, last_name := none, phone_number := none }
    { users := [{ user_id := 0, email := "a@b.c", password_hash := "h",
                  first_name := none, last_name := none,
                  phone_number := none, role := "client" }],
      providers := [], services := [], availability_rules := [],
      appointments := [], next_id := 1 }
  refine ⟨h.1 ⟨rfl, rfl, rfl, ?_⟩, h.2.2 ?_⟩
  · exact ⟨{ user_id := 0, email := "a@b.c", password_hash := "h",
             first_name := none, last_name := none, phone_number := none,
             role := "client" }, List.mem_singleton.mpr rfl, rfl⟩
  · exact List.pairwise_singleton _ _

theorem createAppointment_free (cid pid : Nat) (sid : Option Nat) (s e : Int)
    (st : Store)
    (hfree : st.appointments.any (fun a => a.provider_id == pid &&
      occupying a.status && overlaps a.start_datetime a.end_datetime s e) = false) :
    createAppointment cid pid sid s e st =
      (BookingOutcome.created (new_appointment st.next_id (some cid) pid sid s e),
       { st with
         appointments := st.appointments ++
           [new_appointment st.next_id (some cid) pid sid s e],
         next_id := st.next_id + 1 }) := by
  unfold createAppointment
  rw [hfree]
  rfl

theorem createAppointment_conflict (cid pid : Nat) (sid : Option Nat)
    (s e : Int) (st : Store) (a : Appointment) (ha : a ∈ st.appointments)
    (hmatch : (a.provider_id == pid && occupying a.status &&
      overlaps a.start_datetime a.end_datetime s e) = true) :
    createAppointment cid pid sid s e st = (BookingOutcome.rejectedConflict, st) := by
  unfold createAppointment
  rw [List.any_eq_true.mpr ⟨a, ha, hmatch⟩]
  rfl

/-- C1 (modelled from the spec): two `createAppointment` calls for
overlapping intervals on the same provider, serialized in either order by
the store's atomic reserve-if-free unit, give exactly one created
appointment and one `Rejected(CONFLICT)` whenever both slots were initially
free of occupying appointments. -/
theorem C1_concurrent_booking :
    ∀ (pid c1 c2 : Nat) (sid1 sid2 : Option Nat) (s1 e1 s2 e2 : Int) (st : Store),
      overlaps s1 e1 s2 e2 = true →
      st.appointments.any (fun a => a.provider_id == pid && occupying a.status &&
        overlaps a.start_datetime a.end_datetime s1 e1) = false →
      st.appointments.any (fun a => a.provider_id == pid && occupying a.status &&
        overlaps a.start_datetime a.end_datetime s2 e2) = false →
      ((∃ a, (createAppointment c1 pid sid1 s1 e1 st).1 = BookingOutcome.created a) ∧
        (createAppointment c2 pid sid2 s2 e2
          (createAppointment c1 pid sid1 s1 e1 st).2).1
          = BookingOutcome.rejectedConflict) ∧
      ((∃ a, (createAppointment c2 pid sid2 s2 e2 st).1 = BookingOutcome.created a) ∧
        (createAppointment c1 pid sid1 s1 e1
          (createAppointment c2 pid sid2 s2 e2 st).2).1
          = BookingOutcome.rejectedConflict) := by
  intro pid c1 c2 sid1 sid2 s1 e1 s2 e2 st hov hf1 hf2
  have hov' : overlaps s2 e2 s1 e1 = true := by
    simp only [overlaps, Bool.and_eq_true, decide_eq_true_eq] at hov ⊢
    exact ⟨hov.2, hov.1⟩
  have hm1 : ∀ cid sid, new_appointment st.next_id (some cid) pid sid s1 e1 ∈
      st.appointments ++ [new_appointment st.next_id (some cid) pid sid s1 e1] :=
    fun cid sid => List.mem_append_right _ (List.mem_singleton_self _)
  constructor
  · constructor
    · exact ⟨new_appointment st.next_id (some c1) pid sid1 s1 e1,
        by rw [createAppointment_free c1 pid sid1 s1 e1 st hf1]⟩
    · rw [createAppointment_free c1 pid sid1 s1 e1 st hf1]
      rw [createAppointment_conflict c2 pid sid2 s2 e2 _
        (new_appointment st.next_id (some c1) pid sid1 s1 e1) (hm1 c1 sid1)
        (by simp [new_appointment, appointment_status_default, occupying, hov])]
  · constructor
    · exact ⟨new_appointment st.next_id (some c2) pid sid2 s2 e2,
        by rw [createAppointment_free c2 pid sid2 s2 e2 st hf2]⟩
    · rw [createAppointment_free c2 pid sid2 s2 e2 st hf2]
      rw [createAppointment_conflict c1 pid sid1 s1 e1 _
        (new_appointment st.next_id (some c2) pid sid2 s2 e2)
        (List.mem_append_right _ (List.mem_singleton_self _))
        (by simp [new_appointment, appointment_status_default, occupying, hov'])]

/-- C1 witness: the theorem applied to two overlapping requests, `[0,2)` and
`[1,3)`, on provider 1 over the empty store. -/
theorem C1_concurrent_booking_witness :
    ((∃ a, (createAppointment 2 1 none 0 2 store0).1 = BookingOutcome.created a) ∧
      (createAppointment 3 1 none 1 3 (createAppointment 2 1 none 0 2 store0).2).1
        = BookingOutcome.rejectedConflict) ∧
    ((∃ a, (createAppointment 3 1 none 1 3 store0).1 = BookingOutcome.created a) ∧
      (createAppointment 2 1 none 0 2 (createAppointment 3 1 none 1 3 store0).2).1
        = BookingOutcome.rejectedConflict) :=
  C1_concurrent_booking 1 2 3 none none 0 2 1 3 store0 (by decide) (by decide)
    (by decide)

end Citas
